import Mathlib

/-!
Shallow embedding of src/PDFNotes/src/App.tsx: a React component wiring a
PDF page renderer and a fabric drawing canvas.  Pure handler functions are
translated directly; the React effect lifecycle (the useEffect with
dependency array [annotationMode, penColor, penSize, highlighterColor,
highlighterSize, currentPage]) is modelled as an explicit state transition
that runs the registered cleanup and the effect body whenever the
dependencies changed between renders.  DOM refs, element bounds and the
drawing library's default brush are external inputs, gathered in `Env`.
-/

namespace PDFNotes

/-- Color values (hex strings such as "#000000" in the source). -/
abbrev Color := String

/-- File handles are kept opaque; only identity matters to the component. -/
abbrev FileHandle := Nat

/-- The three annotation tools of the source's union type
'pen' | 'highlighter' | 'eraser'. -/
inductive Tool
  | pen
  | highlighter
  | eraser
  deriving DecidableEq

/-- A fabric free-drawing brush: fields touched by updateDrawingMode
(color, width, opacity, strokeLineCap, strokeLineJoin and the
erase-mode marker written through a type assertion in the source). -/
structure Brush where
  color : Color
  width : Int
  opacity : ℚ
  strokeLineCap : String
  strokeLineJoin : String
  mode : Option String
  deriving DecidableEq

/-- A stroke accumulated on the canvas during free drawing; the component
never inspects its contents, so points are kept abstract. -/
structure Stroke where
  points : List (Int × Int)
  deriving DecidableEq

/-- The fabric.Canvas state visible to the component: the constructor
options of line 55-60 of App.tsx, the free-drawing brush, and the list of
accumulated stroke objects. -/
structure FabricCanvas where
  isDrawingMode : Bool
  width : Int
  height : Int
  preserveObjectStacking : Bool
  freeDrawingBrush : Option Brush
  objects : List Stroke
  deriving DecidableEq

/-- The React useState cells of the App component (App.tsx lines 13-20).
`annotMode` embeds the source's annotationMode state. -/
structure AppState where
  file : Option FileHandle
  numPages : Nat
  currentPage : Int
  annotMode : Option Tool
  penColor : Color
  penSize : Int
  highlighterColor : Color
  highlighterSize : Int
  deriving DecidableEq

/-- Initial state of the useState hooks: no file, 0 pages, page 1, no tool,
black pen of size 2, yellow highlighter of size 10. -/
def initialAppState : AppState :=
  { file := none, numPages := 0, currentPage := 1, annotMode := none,
    penColor := "#000000", penSize := 2,
    highlighterColor := "#FFFF00", highlighterSize := 10 }

/-- onFileChange (App.tsx lines 26-32): if the event carries a selected
file, store it and reset the current page to 1; otherwise do nothing. -/
def onFileChange (selectedFile : Option FileHandle) (s : AppState) : AppState :=
  match selectedFile with
  | some f => { s with file := some f, currentPage := 1 }
  | none => s

/-- onDocumentLoadSuccess (App.tsx lines 34-36): record the page count
reported by the renderer. -/
def onDocumentLoadSuccess (numPages : Nat) (s : AppState) : AppState :=
  { s with numPages := numPages }

/-- handlePageChange (App.tsx lines 38-40): set currentPage to the given
target, with no range check in the handler itself. -/
def handlePageChange (newPage : Int) (s : AppState) : AppState :=
  { s with currentPage := newPage }

/-- handleAnnotationToolSelect (App.tsx lines 42-44): set the active tool. -/
def handleAnnotToolSelect (tool : Tool) (s : AppState) : AppState :=
  { s with annotMode := some tool }

/-- External inputs to an effect run: whether canvasRef.current is non-null,
pageRef.current (none when null, otherwise its clientWidth/clientHeight),
and the freeDrawingBrush the drawing library installs on a fresh canvas
(the source guards every brush access with `if (canvas.freeDrawingBrush)`). -/
structure Env where
  canvasEl : Bool
  pageEl : Option (Int × Int)
  defaultBrush : Option Brush
  deriving DecidableEq

/-- State owned by the effect: the fabricRef cell, whether a cleanup is
currently registered (the effect body returns its cleanup only when it runs
past the ref guard), and counters for dispose and canvas-creation events. -/
structure SurfaceState where
  fabricRef : Option FabricCanvas
  cleanupRegistered : Bool
  disposeCount : Nat
  createCount : Nat
  deriving DecidableEq

/-- Surface state before the effect ever ran. -/
def initialSurfaceState : SurfaceState :=
  { fabricRef := none, cleanupRegistered := false,
    disposeCount := 0, createCount := 0 }

/-- new fabric.Canvas(...) (App.tsx lines 55-60): drawing mode on, sized to
the page bounds, stacking preserved, no strokes; the brush is whatever the
library supplies by default. -/
def newCanvas (env : Env) (w h : Int) : FabricCanvas :=
  { isDrawingMode := true, width := w, height := h,
    preserveObjectStacking := true,
    freeDrawingBrush := env.defaultBrush,
    objects := [] }

/-- updateDrawingMode (App.tsx lines 65-92): clear drawing mode, then
configure it from the selected tool.  Pen and highlighter set color, width,
opacity and round caps/joins on the brush when one exists; eraser sets the
erase-mode marker and a fixed width of 20; no tool leaves drawing mode off. -/
def updateDrawingMode (annotMode : Option Tool) (penColor : Color)
    (penSize : Int) (highlighterColor : Color) (highlighterSize : Int)
    (canvas : FabricCanvas) : FabricCanvas :=
  let canvas := { canvas with isDrawingMode := false }
  if annotMode = some Tool.pen ∨ annotMode = some Tool.highlighter then
    let canvas := { canvas with isDrawingMode := true }
    match canvas.freeDrawingBrush with
    | some brush =>
        { canvas with freeDrawingBrush := some { brush with
            color := if annotMode = some Tool.pen then penColor else highlighterColor,
            width := if annotMode = some Tool.pen then penSize else highlighterSize,
            opacity := if annotMode = some Tool.pen then 1 else 1/2,
            strokeLineCap := "round",
            strokeLineJoin := "round" } }
    | none => canvas
  else if annotMode = some Tool.eraser then
    let canvas := { canvas with isDrawingMode := true }
    match canvas.freeDrawingBrush with
    | some brush =>
        { canvas with freeDrawingBrush := some { brush with
            mode := some "erase", width := 20 } }
    | none => canvas
  else
    { canvas with isDrawingMode := false }

/-- Cleanup of the effect (App.tsx lines 108-114): when a cleanup is
registered, it disposes the fabric canvas if one exists and nulls the ref. -/
def runCleanup (ss : SurfaceState) : SurfaceState :=
  if ss.cleanupRegistered then
    match ss.fabricRef with
    | some _ =>
        { fabricRef := none, cleanupRegistered := false,
          disposeCount := ss.disposeCount + 1, createCount := ss.createCount }
    | none => { ss with cleanupRegistered := false }
  else ss

/-- Body of the effect (App.tsx lines 47-106): return early when either ref
is null (registering no cleanup); otherwise dispose any canvas still in the
ref, create a new canvas sized to the page element, run updateDrawingMode
on it, and register the cleanup. -/
def runEffectBody (env : Env) (s : AppState) (ss : SurfaceState) : SurfaceState :=
  match env.canvasEl, env.pageEl with
  | true, some wh =>
      let preDispose :=
        if ss.fabricRef.isSome then ss.disposeCount + 1 else ss.disposeCount
      let canvas := newCanvas env wh.1 wh.2
      let canvas := updateDrawingMode s.annotMode s.penColor s.penSize
        s.highlighterColor s.highlighterSize canvas
      { fabricRef := some canvas, cleanupRegistered := true,
        disposeCount := preDispose, createCount := ss.createCount + 1 }
  | _, _ => ss

/-- handleResize (App.tsx lines 99-104): when both the fabric ref and the
page element exist, setWidth and setHeight the canvas to the page bounds. -/
def handleResize (env : Env) (ss : SurfaceState) : SurfaceState :=
  match ss.fabricRef, env.pageEl with
  | some fc, some wh =>
      { ss with fabricRef := some { fc with width := wh.1, height := wh.2 } }
  | _, _ => ss

/-- The effect's dependency array (App.tsx line 115). -/
def depsOf (s : AppState) : Option Tool × Color × Int × Color × Int × Int :=
  (s.annotMode, s.penColor, s.penSize, s.highlighterColor,
   s.highlighterSize, s.currentPage)

/-- Whole component: hook state plus effect-owned state. -/
structure Component where
  app : AppState
  surface : SurfaceState
  deriving DecidableEq

/-- Component as first mounted: initial hook state, effect ran once against
null refs (the file-gated subtree is absent) and returned at the guard. -/
def initialComponent : Component :=
  { app := initialAppState, surface := initialSurfaceState }

/-- React update step: install the new hook state; if any effect dependency
changed since the previous render, run the registered cleanup and then the
effect body against the current refs. -/
def reactUpdate (env : Env) (c : Component) (newApp : AppState) : Component :=
  if depsOf newApp = depsOf c.app then
    { c with app := newApp }
  else
    { app := newApp, surface := runEffectBody env newApp (runCleanup c.surface) }

/-- Page navigation operation: handlePageChange followed by the render and
effect cycle. -/
def goToPage (env : Env) (p : Int) (c : Component) : Component :=
  reactUpdate env c (handlePageChange p c.app)

/-- Tool selection operation: handleAnnotationToolSelect followed by the
render and effect cycle. -/
def selectTool (env : Env) (t : Tool) (c : Component) : Component :=
  reactUpdate env c (handleAnnotToolSelect t c.app)

/-- File-selection operation: onFileChange followed by the render and
effect cycle. -/
def loadFile (env : Env) (f : Option FileHandle) (c : Component) : Component :=
  reactUpdate env c (onFileChange f c.app)

/-- Page-count report: onDocumentLoadSuccess followed by the render and
effect cycle. -/
def reportPages (env : Env) (n : Nat) (c : Component) : Component :=
  reactUpdate env c (onDocumentLoadSuccess n c.app)

/-- Previous-page button (App.tsx lines 214-219): disabled exactly when
currentPage is 1; otherwise calls handlePageChange(currentPage - 1). -/
def clickPrev (env : Env) (c : Component) : Component :=
  if c.app.currentPage = 1 then c
  else goToPage env (c.app.currentPage - 1) c

/-- Next-page button (App.tsx lines 223-228): disabled exactly when
currentPage equals numPages; otherwise calls handlePageChange(currentPage + 1). -/
def clickNext (env : Env) (c : Component) : Component :=
  if c.app.currentPage = (c.app.numPages : Int) then c
  else goToPage env (c.app.currentPage + 1) c

/-- Modelled external drawing-library behavior: while isDrawingMode is on,
finishing a free-drawn path appends it to the canvas object list (spec
DATA MODEL: the surface holds stroke objects accumulated during drawing). -/
def drawStroke (st : Stroke) (ss : SurfaceState) : SurfaceState :=
  match ss.fabricRef with
  | some fc =>
      if fc.isDrawingMode then
        { ss with fabricRef := some { fc with objects := fc.objects ++ [st] } }
      else ss
  | none => ss

/-- Drawing lifted to the component. -/
def drawOn (st : Stroke) (c : Component) : Component :=
  { c with surface := drawStroke st c.surface }

/-- The DocumentSession page invariant from the spec: 1 ≤ currentPageIndex
≤ totalPages. -/
def pageInv (s : AppState) : Prop :=
  1 ≤ s.currentPage ∧ s.currentPage ≤ (s.numPages : Int)

instance (s : AppState) : Decidable (pageInv s) := by
  unfold pageInv; infer_instance

/-- A concrete environment with both refs mounted, an 800 by 600 page
element, and no library-installed default brush. -/
def envD : Env :=
  { canvasEl := true, pageEl := some (800, 600), defaultBrush := none }

/-- A concrete environment whose page element is mounted but has zero
width, as before layout. -/
def envZ : Env :=
  { canvasEl := true, pageEl := some (0, 600), defaultBrush := none }

/-- A concrete environment with the canvas ref still null. -/
def envN : Env :=
  { canvasEl := false, pageEl := none, defaultBrush := none }

/-- A concrete brush as a drawing library might install it. -/
def brushD : Brush :=
  { color := "#000000", width := 1, opacity := 1,
    strokeLineCap := "butt", strokeLineJoin := "miter", mode := none }

/-- A concrete environment where the library installs `brushD` on fresh
canvases. -/
def envB : Env :=
  { canvasEl := true, pageEl := some (800, 600), defaultBrush := some brushD }

/-- Concrete component after loading file 7, receiving a 3-page report and
navigating to page 2: file loaded, invariant satisfied, surface active. -/
def cMid : Component :=
  goToPage envD 2 (reportPages envD 3 (loadFile envD (some 7) initialComponent))

/-- Concrete component after loading file 7 and receiving a 1-page report:
both navigation buttons are at their disabled boundary. -/
def cDoc1 : Component :=
  reportPages envD 1 (loadFile envD (some 7) initialComponent)

/-- Concrete component with the pen tool active and a live surface. -/
def cPen : Component :=
  selectTool envD Tool.pen (loadFile envD (some 7) initialComponent)

/-- Concrete stroke used to exercise stroke preservation. -/
def strokeD : Stroke := { points := [(3, 4)] }

/-- Concrete surface state holding one stroke, for resize fixtures. -/
def fcD : FabricCanvas :=
  { isDrawingMode := true, width := 100, height := 200,
    preserveObjectStacking := true, freeDrawingBrush := none,
    objects := [strokeD] }

/-- Concrete surface state wrapping `fcD` with a registered cleanup. -/
def ssD : SurfaceState :=
  { fabricRef := some fcD, cleanupRegistered := true,
    disposeCount := 3, createCount := 4 }

/-- A React update always installs the new hook state, whether or not the
effect re-runs. -/
theorem reactUpdate_app (env : Env) (c : Component) (a : AppState) :
    (reactUpdate env c a).app = a := by
  unfold reactUpdate
  split <;> rfl

/-- C5: loading a new file through onFileChange with a selected file
replaces the loaded file and resets currentPage to 1, whatever the previous
page was. -/
theorem loadFile_resets_page (env : Env) (f : FileHandle) (c : Component) :
    (loadFile env (some f) c).app.file = some f ∧
    (loadFile env (some f) c).app.currentPage = 1 := by
  unfold loadFile
  rw [reactUpdate_app]
  exact ⟨rfl, rfl⟩

/-- C10: when the file-selection event carries no file, onFileChange leaves
the whole component unchanged: loaded file, currentPage, numPages and the
surface state all keep their values and no lifecycle event fires. -/
theorem loadFile_none_noop (env : Env) (c : Component) :
    loadFile env none c = c := by
  unfold loadFile onFileChange reactUpdate
  simp

/-- C9: the resize handler is idempotent, and when it fires on a live
surface it only replaces the canvas's width and height with the page
element's bounds — every other canvas field, including the accumulated
stroke objects, is untouched. -/
theorem handleResize_idem_only_bounds (env : Env) (ss : SurfaceState) :
    handleResize env (handleResize env ss) = handleResize env ss ∧
    (∀ fc wh, ss.fabricRef = some fc → env.pageEl = some wh →
      handleResize env ss =
        { ss with fabricRef := some { fc with width := wh.1, height := wh.2 } }) := by
  constructor
  · cases hf : ss.fabricRef <;> cases hp : env.pageEl <;>
      simp [handleResize, hf, hp]
  · intro fc wh hf hp
    unfold handleResize
    rw [hf, hp]

/-- Witness for C9 at a concrete surface and bounds. -/
theorem handleResize_idem_only_bounds_witness :
    handleResize envD ssD =
      { ssD with fabricRef := some { fcD with width := 800, height := 600 } } :=
  (handleResize_idem_only_bounds envD ssD).2 fcD (800, 600) rfl rfl

/-- C8 counterexample: with the canvas and page elements mounted but the
page element zero-width, the effect does create a surface (of width 0)
rather than skipping initialization, contradicting the claim that zero-size
bounds are a no-op with no surface created. -/
theorem zero_bounds_still_creates_cex :
    (selectTool envZ Tool.pen initialComponent).surface.createCount = 1 ∧
    (selectTool envZ Tool.pen initialComponent).surface.fabricRef.map
      FabricCanvas.width = some 0 := by
  decide

/-- C8 amended: the initialization guard checks ref availability, not
bounds: when either the canvas ref or the page ref is null, the effect body
is a silent no-op leaving the surface state unchanged, with no error path. -/
theorem effect_guard_null_refs (env : Env) (s : AppState) (ss : SurfaceState)
    (h : env.canvasEl = false ∨ env.pageEl = none) :
    runEffectBody env s ss = ss := by
  unfold runEffectBody
  cases hc : env.canvasEl <;> cases hp : env.pageEl <;> simp_all

/-- Witness for C8's amended guard at the pre-mount environment. -/
theorem effect_guard_null_refs_witness :
    runEffectBody envN initialAppState initialSurfaceState = initialSurfaceState :=
  effect_guard_null_refs envN initialAppState initialSurfaceState (Or.inl rfl)

/-- C7: applying the drawing-mode update with pen active puts the canvas in
free-draw mode with the stored pen color and width, opacity 1 and round
caps and joins; with highlighter active it uses the stored highlighter
color and width with opacity 1/2 — for every stored combination of the four
color and width settings, and touching nothing else on the canvas. -/
theorem pen_highlighter_config (pc : Color) (ps : Int) (hlc : Color)
    (hls : Int) (fc : FabricCanvas) (b : Brush)
    (hb : fc.freeDrawingBrush = some b) :
    updateDrawingMode (some Tool.pen) pc ps hlc hls fc =
      { fc with
        isDrawingMode := true,
        freeDrawingBrush := some { b with
          color := pc, width := ps, opacity := 1,
          strokeLineCap := "round", strokeLineJoin := "round" } } ∧
    updateDrawingMode (some Tool.highlighter) pc ps hlc hls fc =
      { fc with
        isDrawingMode := true,
        freeDrawingBrush := some { b with
          color := hlc, width := hls, opacity := 1/2,
          strokeLineCap := "round", strokeLineJoin := "round" } } := by
  constructor <;> simp [updateDrawingMode, hb]

/-- Witness for C7 at a concrete brush and settings. -/
theorem pen_highlighter_config_witness :
    updateDrawingMode (some Tool.pen) "#FF0000" 5 "#00FF00" 12
        { fcD with freeDrawingBrush := some brushD } =
      { { fcD with freeDrawingBrush := some brushD } with
        isDrawingMode := true,
        freeDrawingBrush := some { brushD with
          color := "#FF0000", width := 5, opacity := 1,
          strokeLineCap := "round", strokeLineJoin := "round" } } ∧
    updateDrawingMode (some Tool.highlighter) "#FF0000" 5 "#00FF00" 12
        { fcD with freeDrawingBrush := some brushD } =
      { { fcD with freeDrawingBrush := some brushD } with
        isDrawingMode := true,
        freeDrawingBrush := some { brushD with
          color := "#00FF00", width := 12, opacity := 1/2,
          strokeLineCap := "round", strokeLineJoin := "round" } } :=
  pen_highlighter_config "#FF0000" 5 "#00FF00" 12
    { fcD with freeDrawingBrush := some brushD } brushD rfl

/-- C6: selecting the eraser tool (when it was not already active, with the
elements mounted and a default brush installed) leaves the surface in
free-draw erase mode with brush width exactly 20, whatever pen and
highlighter widths the component stores. -/
theorem selectEraser_fixed_width (env : Env) (c : Component) (b : Brush)
    (wh : Int × Int) (hc : env.canvasEl = true) (hp : env.pageEl = some wh)
    (hb : env.defaultBrush = some b) (hm : c.app.annotMode ≠ some Tool.eraser) :
    (selectTool env Tool.eraser c).surface.fabricRef =
      some { isDrawingMode := true, width := wh.1, height := wh.2,
             preserveObjectStacking := true,
             freeDrawingBrush := some { b with mode := some "erase", width := 20 },
             objects := [] } := by
  unfold selectTool reactUpdate
  rw [if_neg]
  · simp [runEffectBody, hc, hp, newCanvas, hb, updateDrawingMode,
      handleAnnotToolSelect]
  · intro h
    simp [depsOf, handleAnnotToolSelect] at h
    exact hm h.symm

/-- Witness for C6 from the initial component under `envB`. -/
theorem selectEraser_fixed_width_witness :
    (selectTool envB Tool.eraser initialComponent).surface.fabricRef =
      some { isDrawingMode := true, width := 800, height := 600,
             preserveObjectStacking := true,
             freeDrawingBrush := some { brushD with mode := some "erase", width := 20 },
             objects := [] } :=
  selectEraser_fixed_width envB initialComponent brushD (800, 600)
    rfl rfl rfl (by decide)

/-- C3 counterexample: after drawing a stroke with the pen active,
selecting the highlighter recreates the surface and the accumulated stroke
is gone — tool selection does discard existing strokes. -/
theorem selectTool_discards_strokes_cex :
    ((drawOn strokeD cPen).surface.fabricRef.map FabricCanvas.objects =
      some [strokeD]) ∧
    ((selectTool envD Tool.highlighter (drawOn strokeD cPen)).surface.fabricRef.map
      FabricCanvas.objects = some []) := by
  decide

/-- Helper: updateDrawingMode never touches the canvas object list. -/
theorem updateDrawingMode_objects (m : Option Tool) (pc : Color) (ps : Int)
    (hlc : Color) (hls : Int) (fc : FabricCanvas) :
    (updateDrawingMode m pc ps hlc hls fc).objects = fc.objects := by
  cases hb : fc.freeDrawingBrush with
  | none =>
      cases m with
      | none => simp [updateDrawingMode, hb]
      | some t0 => cases t0 <;> simp [updateDrawingMode, hb]
  | some b =>
      cases m with
      | none => simp [updateDrawingMode, hb]
      | some t0 => cases t0 <;> simp [updateDrawingMode, hb]

/-- C3 amended: applying the tool configuration to an existing canvas
(updateDrawingMode) never touches the stroke list, and re-selecting the
already-active tool changes no effect dependency and leaves the component
untouched; but selecting a different tool while the elements are mounted
recreates the surface with an empty stroke list. -/
theorem tool_change_strokes (env : Env) (t : Tool) (c : Component) :
    (∀ m pc ps hlc hls fc,
      (updateDrawingMode m pc ps hlc hls fc).objects = fc.objects) ∧
    (c.app.annotMode = some t → selectTool env t c = c) ∧
    (∀ wh, env.canvasEl = true → env.pageEl = some wh →
      c.app.annotMode ≠ some t →
      (selectTool env t c).surface.fabricRef.map FabricCanvas.objects = some []) := by
  refine ⟨updateDrawingMode_objects, ?_, ?_⟩
  · intro h
    have happ : handleAnnotToolSelect t c.app = c.app := by
      unfold handleAnnotToolSelect
      rw [← h]
    unfold selectTool reactUpdate
    rw [happ]
    simp
  · intro wh hc hp hm
    unfold selectTool reactUpdate
    rw [if_neg]
    · simp [runEffectBody, hc, hp, updateDrawingMode_objects, newCanvas]
    · intro h
      simp [depsOf, handleAnnotToolSelect] at h
      exact hm h.symm

/-- Witness for C3's amended statement: re-selecting the active pen is the
identity, and switching to the highlighter empties the stroke list. -/
theorem tool_change_strokes_witness :
    selectTool envD Tool.pen cPen = cPen ∧
    (selectTool envD Tool.highlighter cPen).surface.fabricRef.map
      FabricCanvas.objects = some [] :=
  ⟨(tool_change_strokes envD Tool.pen cPen).2.1 (by decide),
   (tool_change_strokes envD Tool.highlighter cPen).2.2 (800, 600)
     rfl rfl (by decide)⟩

/-- C1 counterexample: at `cMid` the target page 2 is valid (1 ≤ 2 ≤ 3), a
file is loaded and the surface is live, yet goToPage 2 — the page already
current — triggers no teardown and no re-initialization rather than exactly
one of each. -/
theorem goToPage_same_page_cex :
    (1 ≤ cMid.app.currentPage ∧ cMid.app.currentPage ≤ (cMid.app.numPages : Int) ∧
      cMid.app.file.isSome = true ∧ cMid.surface.fabricRef.isSome = true) ∧
    (goToPage envD 2 cMid).app.currentPage = 2 ∧
    (goToPage envD 2 cMid).surface.disposeCount = cMid.surface.disposeCount ∧
    (goToPage envD 2 cMid).surface.createCount = cMid.surface.createCount := by
  decide

/-- C1 amended: for every valid target p that differs from the current
page, with a file loaded, the elements mounted and a live surface, goToPage
p sets currentPage to p and performs exactly one canvas dispose and exactly
one canvas creation; a target equal to the current page changes no effect
dependency and produces no lifecycle event. -/
theorem goToPage_new_page_one_cycle (env : Env) (c : Component) (p : Int)
    (wh : Int × Int) (hc : env.canvasEl = true) (hp : env.pageEl = some wh)
    (hf : c.app.file.isSome = true) (hs : c.surface.fabricRef.isSome = true)
    (h1 : 1 ≤ p) (h2 : p ≤ (c.app.numPages : Int))
    (hne : p ≠ c.app.currentPage) :
    (goToPage env p c).app.currentPage = p ∧
    (goToPage env p c).surface.disposeCount = c.surface.disposeCount + 1 ∧
    (goToPage env p c).surface.createCount = c.surface.createCount + 1 ∧
    (goToPage env p c).surface.fabricRef.isSome = true := by
  obtain ⟨fc, hfc⟩ := Option.isSome_iff_exists.mp hs
  unfold goToPage reactUpdate
  rw [if_neg]
  · cases hr : c.surface.cleanupRegistered <;>
      simp [runEffectBody, runCleanup, hc, hp, hfc, hr, handlePageChange]
  · intro h
    simp [depsOf, handlePageChange] at h
    exact hne h

/-- Witness for C1's amended statement: navigating from page 2 to page 3. -/
theorem goToPage_new_page_one_cycle_witness :
    (goToPage envD 3 cMid).app.currentPage = 3 ∧
    (goToPage envD 3 cMid).surface.disposeCount = cMid.surface.disposeCount + 1 ∧
    (goToPage envD 3 cMid).surface.createCount = cMid.surface.createCount + 1 ∧
    (goToPage envD 3 cMid).surface.fabricRef.isSome = true :=
  goToPage_new_page_one_cycle envD cMid 3 (800, 600) rfl rfl (by decide)
    (by decide) (by decide) (by decide) (by decide)

/-- C2 counterexample: handlePageChange has no range guard — invoking the
page-change operation with the out-of-range target 0 from page 2 of a
3-page document changes currentPage to 0 and performs a full surface
teardown and re-initialization, instead of being a no-op. -/
theorem page_change_unguarded_cex :
    (goToPage envD 0 cMid).app.currentPage = 0 ∧
    (goToPage envD 0 cMid).surface.disposeCount = cMid.surface.disposeCount + 1 ∧
    (goToPage envD 0 cMid).surface.createCount = cMid.surface.createCount + 1 := by
  decide

/-- C2 amended: out-of-range targets are excluded at the UI level rather
than inside the handler: the previous-page button is disabled exactly at
currentPage = 1 and the next-page button exactly at currentPage = numPages,
and clicking a disabled button leaves the whole component unchanged with no
surface lifecycle event. -/
theorem boundary_buttons_noop (env : Env) (c : Component) :
    (c.app.currentPage = 1 → clickPrev env c = c) ∧
    (c.app.currentPage = (c.app.numPages : Int) → clickNext env c = c) := by
  constructor
  · intro h
    simp [clickPrev, h]
  · intro h
    simp [clickNext, h]

/-- Witness for C2's amended statement at a 1-page document, where both
buttons sit at their disabled boundary. -/
theorem boundary_buttons_noop_witness :
    clickPrev envD cDoc1 = cDoc1 ∧ clickNext envD cDoc1 = cDoc1 :=
  ⟨(boundary_buttons_noop envD cDoc1).1 (by decide),
   (boundary_buttons_noop envD cDoc1).2 (by decide)⟩

/-- C4 counterexample: right after the first file selection and before the
renderer reports a page count, a file is loaded but totalPages is still 0,
so 1 ≤ currentPage ≤ totalPages fails. -/
theorem pageInv_load_window_cex :
    (loadFile envD (some 7) initialComponent).app.file.isSome = true ∧
    ¬ pageInv (loadFile envD (some 7) initialComponent).app := by
  decide

/-- C4 amended: the page invariant is established once the renderer reports
a page count n ≥ 1 after a file load (currentPage is then 1), and it is
preserved by the navigation buttons; loading a file always resets
currentPage to 1.  In the window between a file change and the page-count
report the invariant can fail, since numPages keeps its prior value. -/
theorem pageInv_established_preserved (env : Env) (f : FileHandle) (n : Nat)
    (c : Component) :
    (1 ≤ n → pageInv (reportPages env n (loadFile env (some f) c)).app) ∧
    (pageInv c.app →
      pageInv (clickPrev env c).app ∧ pageInv (clickNext env c).app) ∧
    (loadFile env (some f) c).app.currentPage = 1 := by
  refine ⟨?_, ?_, ?_⟩
  · intro hn
    unfold reportPages loadFile
    rw [reactUpdate_app, reactUpdate_app]
    unfold onDocumentLoadSuccess onFileChange pageInv
    simp
    omega
  · intro hinv
    unfold pageInv at hinv
    constructor
    · unfold clickPrev
      split
      · exact hinv
      · unfold goToPage
        rw [reactUpdate_app]
        unfold handlePageChange pageInv
        simp only []
        omega
    · unfold clickNext
      split
      · exact hinv
      · unfold goToPage
        rw [reactUpdate_app]
        unfold handlePageChange pageInv
        simp only []
        omega
  · unfold loadFile
    rw [reactUpdate_app]
    rfl

/-- Witness for C4's amended statement: the invariant holds after a 1-page
report on a fresh load, is preserved by both buttons at `cMid`, and a load
from `cMid` resets the page to 1. -/
theorem pageInv_established_preserved_witness :
    pageInv (reportPages envD 1 (loadFile envD (some 7) initialComponent)).app ∧
    (pageInv (clickPrev envD cMid).app ∧ pageInv (clickNext envD cMid).app) ∧
    (loadFile envD (some 7) cMid).app.currentPage = 1 :=
  ⟨(pageInv_established_preserved envD 7 1 initialComponent).1 (by decide),
   (pageInv_established_preserved envD 7 1 cMid).2.1 (by decide),
   (pageInv_established_preserved envD 7 1 cMid).2.2⟩

end PDFNotes
